import Mathlib

/-!
Formal model of the real-time synchronization core of the
CrashBytes/cloudflare-monitor repository, shallowly embedded in Lean 4.

Components modelled (each definition is a direct translation of the named
TypeScript source):

* the bounded TTL / LRU cache
  (src/apps/api/src/services/cloudflare/polling.ts, class CacheService);
* the polling coordinator
  (src/apps/api/src/services/cloudflare/polling.ts, class
  CloudflarePollingService);
* the SSE fan-out manager (src/apps/api/src/sse/manager.ts, class SSEManager);
* the upstream HTTP client retry loop
  (src/packages/cloudflare-sdk/src/client.ts, class CloudflareClient.request).

Wall-clock time (Date.now()) is passed as an explicit natural-number
parameter.  JavaScript Map objects (string keys, insertion order) are
modelled as association lists in insertion order: the head of the list is
the first (oldest-inserted) entry, matching map.keys().next().value, and
re-insertion appends at the tail.  Asynchronous effects (fetches, upserts,
stream writes) are modelled as explicit environments/oracles passed to the
functions that await them; a call that may throw is an Except value.
-/

namespace CloudflareMonitor

/-! ## JavaScript Map model (string-keyed, insertion ordered) -/

/-- Association-list lookup, the model of map.get(k): the value stored at
the first (and, under the key-uniqueness maintained by every caller, only)
occurrence of the key. -/
def mapGet {α : Type} (m : List (String × α)) (k : String) : Option α :=
  (m.find? (fun kv => kv.1 == k)).map (fun kv => kv.2)

/-- Association-list deletion, the model of map.delete(k): removes the
entry holding the key, preserving the order of the others. -/
def mapDelete {α : Type} (m : List (String × α)) (k : String) :
    List (String × α) :=
  m.eraseP (fun kv => kv.1 == k)

/-- Association-list insertion, the model of map.set(k, v): an existing
key is updated in place, a new key is appended at the tail (most recently
inserted position). -/
def mapSet {α : Type} (m : List (String × α)) (k : String) (v : α) :
    List (String × α) :=
  if (m.find? (fun kv => kv.1 == k)).isSome then
    m.map (fun kv => if kv.1 == k then (k, v) else kv)
  else
    m ++ [(k, v)]

/-! ## Bounded TTL / LRU cache

Translation of class CacheService in
src/apps/api/src/services/cloudflare/polling.ts. -/

/-- Translation of interface CacheEntry: value, Date.now() timestamp at
storage time, and access counter. -/
structure CacheEntry (T : Type) where
  value : T
  timestamp : Nat
  accessCount : Nat
deriving DecidableEq, Repr

/-- Translation of the state of class CacheService: the insertion-ordered
map, the configured bounds, and the hit/miss counters. -/
structure CacheService (T : Type) where
  cache : List (String × CacheEntry T)
  maxSize : Nat
  ttl : Nat
  hits : Nat
  misses : Nat
deriving DecidableEq, Repr

/-- Translation of CacheService.get (polling.ts lines 372-397).  Absent
key: count a miss.  Present but now - entry.timestamp > ttl: delete the
entry and count a miss.  Otherwise: move the entry to the tail
(delete-then-set, the LRU reorder), bump its access count, count a hit and
return the stored value.  Date.now() is the explicit `now` argument. -/
def CacheService.get {T : Type} (c : CacheService T) (key : String)
    (now : Nat) : Option T × CacheService T :=
  match mapGet c.cache key with
  | none => (none, { c with misses := c.misses + 1 })
  | some entry =>
    if now - entry.timestamp > c.ttl then
      (none, { c with cache := mapDelete c.cache key,
                      misses := c.misses + 1 })
    else
      (some entry.value,
       { c with
           cache := mapSet (mapDelete c.cache key) key
             { entry with accessCount := entry.accessCount + 1 },
           hits := c.hits + 1 })

/-- Translation of CacheService.set (polling.ts lines 409-429).  An
existing key is first deleted (to refresh its LRU position).  If the map
is then still at capacity, the code reads firstKey =
cache.keys().next().value and runs the eviction under a JavaScript
truthiness test if (firstKey): the delete is skipped both when the map is
empty (firstKey is undefined) and when the oldest key is the empty string
(a falsy value).  Finally the new entry is appended with a fresh
timestamp and a zero access count. -/
def CacheService.set {T : Type} (c : CacheService T) (key : String)
    (value : T) (now : Nat) : CacheService T :=
  let afterDelete :=
    if (mapGet c.cache key).isSome then mapDelete c.cache key else c.cache
  let afterEvict :=
    if afterDelete.length ≥ c.maxSize then
      match afterDelete.head? with
      | some firstEntry =>
        if firstEntry.1 == "" then afterDelete
        else mapDelete afterDelete firstEntry.1
      | none => afterDelete
    else afterDelete
  { c with cache := mapSet afterEvict key ⟨value, now, 0⟩ }

/-- Health classification returned by CacheService.getHealthStatus. -/
inductive HealthStatus where
  | operational
  | degraded
  | down
deriving DecidableEq, Repr

/-- Translation of CacheService.getHealthStatus (polling.ts lines
500-509).  With no requests recorded the code returns operational without
dividing.  Otherwise the source compares the percentage hitRate =
(hits / total) * 100 with the literals 50 and 20 using strict >; the
comparisons are modelled exactly by cross-multiplication
(hits * 100 > bound * total). -/
def CacheService.getHealthStatus {T : Type} (c : CacheService T) :
    HealthStatus :=
  let total := c.hits + c.misses
  if total = 0 then .operational
  else if c.hits * 100 > 50 * total then .operational
  else if c.hits * 100 > 20 * total then .degraded
  else .down

/-! ## Polling coordinator

Translation of class CloudflarePollingService in
src/apps/api/src/services/cloudflare/polling.ts. -/

/-- Translation of the CloudflareProject domain record built by
fetchProjects (polling.ts lines 210-220). -/
structure CloudflareProject where
  id : String
  name : String
  accountId : String
  createdAt : String
  productionBranch : Option String
deriving DecidableEq, Repr

/-- Translation of the latestStage sub-record built by fetchDeployments
(polling.ts lines 240-245). -/
structure DeploymentStage where
  name : String
  status : String
  startedAt : Option String
  endedAt : Option String
deriving DecidableEq, Repr

/-- Translation of the CloudflareDeployment domain record built by
fetchDeployments (polling.ts lines 231-247). -/
structure CloudflareDeployment where
  id : String
  projectId : String
  projectName : String
  environment : String
  url : String
  status : String
  createdAt : String
  modifiedAt : String
  latestStage : DeploymentStage
  aliases : List String
deriving DecidableEq, Repr

/-- Translation of CloudflarePollingService.mapDeploymentStatus
(polling.ts lines 255-271): the switch collapsing Cloudflare stage
statuses onto the deployment status enum. -/
def mapDeploymentStatus (stageStatus : String) : String :=
  match stageStatus with
  | "success" => "active"
  | "active" => "building"
  | "failure" => "failure"
  | "idle" => "queued"
  | "skipped" => "queued"
  | "cancelled" => "cancelled"
  | _ => "queued"

/-- Translation of the PollResult record (polling.ts lines 35-42).  The
timestamp and duration fields of the source are wall-clock strings and
elapsed milliseconds; they carry no information the verified claims
mention and are omitted from the model. -/
structure PollResult where
  success : Bool
  projectsCount : Nat
  deploymentsCount : Nat
  errors : List String
deriving DecidableEq, Repr

/-- Environment of one poll() cycle: the awaited collaborator calls it
performs.  fetchProjects / fetchDeployments wrap the SDK calls (either a
list of normalized records or a thrown error message); upsertProjects /
upsertDeployments are the repository upsertMany calls, which either
succeed or raise. -/
structure PollEnv where
  fetchProjects : Except String (List CloudflareProject)
  fetchDeployments : CloudflareProject → Except String (List CloudflareDeployment)
  upsertProjects : List CloudflareProject → Except String Unit
  upsertDeployments : List CloudflareDeployment → Except String Unit

/-- One persistence invocation issued by a poll cycle (a repository
upsertMany call), recorded in invocation order. -/
inductive PersistCall where
  | projects (ps : List CloudflareProject)
  | deployments (ds : List CloudflareDeployment)
deriving DecidableEq, Repr

/-- Translation of the per-project closure inside Promise.all
(polling.ts lines 144-152): try the deployments fetch for one project;
on success return the fetched list (and no error message), on failure
return the empty list together with the identifying error message pushed
at line 149. -/
def fetchDeploymentsCaught (env : PollEnv) (p : CloudflareProject) :
    List CloudflareDeployment × Option String :=
  match env.fetchDeployments p with
  | .ok ds => (ds, none)
  | .error m =>
    ([], some ("Deployments fetch failed for " ++ p.name ++ ": " ++ m))

/-- Sub-resource records one parent project contributes to the cycle:
the fetched list on success, the empty list when the per-project fetch
raised (the catch in polling.ts lines 145-152 returns []). -/
def parentContribution (env : PollEnv) (p : CloudflareProject) :
    List CloudflareDeployment :=
  match env.fetchDeployments p with
  | .ok ds => ds
  | .error _ => []

/-- All sub-resource records the cycle flattens for the bulk upsert
(polling.ts line 155): the concatenation, in project order, of each
contribution of the parent. -/
def collectDeployments (env : PollEnv) (ps : List CloudflareProject) :
    List CloudflareDeployment :=
  (ps.map (parentContribution env)).flatten

/-- Translation of CloudflarePollingService.poll (polling.ts lines
121-202), returning the PollResult together with the list of persistence
calls the cycle issued.  Step 1 catches a projects-fetch failure,
recording it and continuing with an empty list.  When projects were
fetched, upsertMany(projects) runs (it may raise: the top-level catch
turns that into a single Critical failure entry with success false and
the counts reached so far).  Step 3 maps every project to its
deployments, each per-project failure caught individually and recorded
with the identifying prefix of polling.ts line 149; the source pushes
these messages in Promise completion order, which is not determined, so
the model fixes the representative project order (the claims below only
use membership, which is order-independent).  Step 4 bulk-upserts the
flattened deployments when non-empty (again a raise becomes the critical
entry), and the success field of the result is the emptiness of the error list. -/
def pollRun (env : PollEnv) : PollResult × List PersistCall :=
  let (projects, errors0) :=
    match env.fetchProjects with
    | .ok ps => (ps, ([] : List String))
    | .error m => ([], ["Projects fetch failed: " ++ m])
  if projects.length > 0 then
    match env.upsertProjects projects with
    | .error m =>
      ({ success := false, projectsCount := 0, deploymentsCount := 0,
         errors := errors0 ++ ["Critical failure: " ++ m] },
       [PersistCall.projects projects])
    | .ok _ =>
      let projectsCount := projects.length
      let perParent := projects.map (fetchDeploymentsCaught env)
      let errors1 := errors0 ++ perParent.filterMap (fun x => x.2)
      let allDeployments := (perParent.map (fun x => x.1)).flatten
      if allDeployments.length > 0 then
        match env.upsertDeployments allDeployments with
        | .error m =>
          ({ success := false, projectsCount := projectsCount,
             deploymentsCount := 0,
             errors := errors1 ++ ["Critical failure: " ++ m] },
           [PersistCall.projects projects,
            PersistCall.deployments allDeployments])
        | .ok _ =>
          ({ success := errors1.isEmpty, projectsCount := projectsCount,
             deploymentsCount := allDeployments.length, errors := errors1 },
           [PersistCall.projects projects,
            PersistCall.deployments allDeployments])
      else
        ({ success := errors1.isEmpty, projectsCount := projectsCount,
           deploymentsCount := 0, errors := errors1 },
         [PersistCall.projects projects])
  else
    ({ success := errors0.isEmpty, projectsCount := 0,
       deploymentsCount := 0, errors := errors0 }, [])

/-- Mutable coordinator state the claims mention: the retained most
recent PollResult (polling.ts line 50). -/
structure PollingState where
  lastPollResult : Option PollResult
deriving DecidableEq, Repr

/-- One poll() call as seen from the coordinator state: both exit paths
of the source (normal return and top-level catch) assign
this.lastPollResult = result before returning, so the call returns the
fresh result and stores it. -/
def pollUpdate (env : PollEnv) (s : PollingState) :
    PollResult × PollingState :=
  let r := (pollRun env).1
  (r, { lastPollResult := some r })

/-! ## Polling schedule (start / stop / interval ticks)

Event-loop abstraction of CloudflarePollingService.start, stop and the
setInterval schedule (polling.ts lines 68-107).  poll() is asynchronous
and suspends at its awaited fetches, so a cycle that has begun stays in
flight across timer callbacks until its promise settles; the state tracks
how many cycles have begun and not yet settled. -/

/-- Scheduling state of the coordinator: the isPolling flag, whether the
setInterval handle is installed (pollInterval not null), and the number
of poll() cycles begun and not yet settled. -/
structure PollSchedState where
  isPolling : Bool
  hasInterval : Bool
  inFlight : Nat
deriving DecidableEq, Repr

/-- Translation of start() (polling.ts lines 68-88): a no-op when already
running; otherwise it sets isPolling, immediately begins one poll() cycle
(fire-and-forget, so the cycle is now in flight), and installs the
setInterval schedule. -/
def startStep (s : PollSchedState) : PollSchedState :=
  if s.isPolling then s
  else { isPolling := true, hasInterval := true, inFlight := s.inFlight + 1 }

/-- Translation of one setInterval callback firing (polling.ts lines
83-87): when the interval is installed, the callback invokes this.poll()
unconditionally — there is no check of an in-flight cycle — so one more
cycle begins. -/
def tickStep (s : PollSchedState) : PollSchedState :=
  if s.hasInterval then { s with inFlight := s.inFlight + 1 } else s

/-- One in-flight poll() promise settling (the cycle ran to completion;
poll never rejects, so settling is the only way a cycle ends). -/
def finishStep (s : PollSchedState) : PollSchedState :=
  { s with inFlight := s.inFlight - 1 }

/-- Translation of stop() (polling.ts lines 95-107): a no-op when not
running; otherwise clears isPolling and the interval.  It does not abort
an in-flight cycle. -/
def stopStep (s : PollSchedState) : PollSchedState :=
  if s.isPolling then { s with isPolling := false, hasInterval := false }
  else s

/-- States the coordinator can reach from its initial state (constructed
stopped with no interval and nothing in flight) under any interleaving of
start/stop calls, interval ticks and cycle completions. -/
inductive SchedReachable : PollSchedState → Prop where
  | init : SchedReachable ⟨false, false, 0⟩
  | start {s : PollSchedState} (h : SchedReachable s) :
      SchedReachable (startStep s)
  | tick {s : PollSchedState} (h : SchedReachable s) :
      SchedReachable (tickStep s)
  | finish {s : PollSchedState} (h : SchedReachable s)
      (hpos : 0 < s.inFlight) : SchedReachable (finishStep s)
  | stop {s : PollSchedState} (h : SchedReachable s) :
      SchedReachable (stopStep s)

/-! ## SSE fan-out manager

Translation of class SSEManager in src/apps/api/src/sse/manager.ts. -/

/-- Translation of interface SSEClient (manager.ts lines 45-52).  The
Hono context and stream controller are modelled by the per-client write
oracle passed to broadcast; the topic Set is a list queried by
membership. -/
structure SSEClient where
  id : String
  topics : List String
  connectedAt : Nat
  lastHeartbeat : Nat
deriving DecidableEq, Repr

/-- Maximum registry size (manager.ts line 58). -/
def MAX_CLIENTS : Nat := 1000

/-- Heartbeat period in milliseconds (manager.ts line 57). -/
def HEARTBEAT_INTERVAL : Nat := 30000

/-- Outcome createConnection reports to the subscribing caller: the 503
capacity rejection, or acceptance with the assigned client id (followed
by the connected acknowledgment message). -/
inductive SubscribeOutcome where
  | rejected
  | accepted (clientId : String)
deriving DecidableEq, Repr

/-- Translation of SSEManager.createConnection (manager.ts lines 76-118)
restricted to its registry effect: when the registry already has
MAX_CLIENTS entries the request is answered with the 503 capacity error
and the registry is left untouched; otherwise the new client record is
registered (connectedAt and lastHeartbeat initialized to now) and the
connected acknowledgment carries its id. -/
def createConnection (clients : List SSEClient) (newId : String)
    (topics : List String) (now : Nat) :
    SubscribeOutcome × List SSEClient :=
  if clients.length ≥ MAX_CLIENTS then (.rejected, clients)
  else
    (.accepted newId,
     clients ++ [{ id := newId, topics := topics, connectedAt := now,
                   lastHeartbeat := now }])

/-- Target predicate of SSEManager.broadcast (manager.ts lines 131-133):
a client receives messages on a topic when its topic set contains the
wildcard or the exact topic. -/
def isTarget (topic : String) (c : SSEClient) : Bool :=
  c.topics.contains "*" || c.topics.contains topic

/-- Registry effect of SSEManager.broadcast (manager.ts lines 130-150)
with per-client write success given by the oracle writeOk: each targeted
client is attempted independently; a successful write refreshes
lastHeartbeat to the send time (sendToClient line 175), a failed write
removes exactly that client (the catch at lines 143-146); clients not
matching the topic are untouched.  Zero targets leave the registry
unchanged, which the pointwise form already yields. -/
def broadcastStep (topic : String) (now : Nat) (writeOk : String → Bool)
    (clients : List SSEClient) : List SSEClient :=
  clients.filterMap (fun c =>
    if isTarget topic c then
      if writeOk c.id then some { c with lastHeartbeat := now } else none
    else some c)

/-- Staleness bound of the sweep (manager.ts line 216): twice the
heartbeat interval. -/
def staleThreshold : Nat := HEARTBEAT_INTERVAL * 2

/-- Translation of one firing of the startHeartbeat timer (manager.ts
lines 213-233).  The callback captures now, calls
broadcast(heartbeat, ...) without awaiting it, then sweeps the registry
removing every client with now - lastHeartbeat > staleThreshold.  The
stream writes inside broadcast execute synchronously when the send
promises are created, but the liveness refresh and the failure-triggered
removal sit after an await, so they run as microtasks only after the
synchronous sweep has finished: the sweep therefore judges staleness on
the pre-broadcast timestamps, and the refreshes and removals
then apply to the survivors (removeClient on an already swept id is an
idempotent no-op). -/
def heartbeatTick (now : Nat) (writeOk : String → Bool)
    (clients : List SSEClient) : List SSEClient :=
  let afterSweep :=
    clients.filter (fun c => !(now - c.lastHeartbeat > staleThreshold))
  broadcastStep "heartbeat" now writeOk afterSweep

/-! ## Upstream client retry loop

Translation of CloudflareClient.request in
src/packages/cloudflare-sdk/src/client.ts (lines 60-138). -/

/-- A JavaScript Error value as the retry logic inspects it: its name
(Error for values built by throw new Error, AbortError for the timeout
abort, TypeError for a network-level fetch failure) and its message. -/
structure JsError where
  name : String
  message : String
deriving DecidableEq, Repr

/-- The parts of one fetch response the request loop reads: the numeric
status, the optional Retry-After header, response.ok, the parsed body
success flag and first error message, and the statusText fallback. -/
structure HttpResponse where
  status : Nat
  retryAfter : Option Nat
  ok : Bool
  success : Bool
  errMsg : Option String
  statusText : String
deriving DecidableEq, Repr

/-- Outcome of one fetch attempt: a response, or a thrown error (network
failure or the AbortError raised when the timeout fires). -/
inductive FetchOutcome where
  | resp (r : HttpResponse)
  | throws (e : JsError)

/-- Translation of the body-handling tail of an attempt (client.ts lines
107-121): a non-ok response throws the Cloudflare API error message (the
first body error message, else statusText), an ok response whose body
reports failure throws the request-failed message, and otherwise the data
is returned. -/
def processBody (r : HttpResponse) : Except JsError HttpResponse :=
  if !r.ok then
    .error ⟨"Error", "Cloudflare API error: " ++ (r.errMsg.getD r.statusText)⟩
  else if !r.success then
    .error ⟨"Error",
            "Cloudflare API request failed: " ++ (r.errMsg.getD "Unknown error")⟩
  else .ok r

/-- Translation of the retry for-loop of CloudflareClient.request
(client.ts lines 73-137), with the attempt outcomes supplied by the env
oracle and the backoff sleeps counted instead of timed (their durations
carry random jitter).  Control flow per attempt: a 429 response with
attempt < maxRetries sleeps and retries (at the final attempt it falls
through to the body handling); a 5xx response likewise; otherwise the
body handling either returns the data or throws, and every thrown error
lands in the catch block, which records it as lastError and retries —
with a backoff sleep — whenever the name of the error differs from AbortError
and attempts remain, propagating the error otherwise.  The fuel argument
bounds the loop (requestTotals supplies maxRetries + 1, the original
iteration count); the fuel-exhausted branch is the final throw of
lastError after the loop, which the loop structure makes unreachable. -/
def requestLoop (env : Nat → FetchOutcome) (maxRetries : Nat) :
    Nat → Nat → Option JsError → Nat → Except JsError HttpResponse × Nat
  | 0, _, lastError, sleeps =>
    (.error (lastError.getD ⟨"Error", "Max retries exceeded"⟩), sleeps)
  | fuel + 1, attempt, lastError, sleeps =>
    match env attempt with
    | .throws e =>
      if e.name ≠ "AbortError" ∧ attempt < maxRetries then
        requestLoop env maxRetries fuel (attempt + 1) (some e) (sleeps + 1)
      else (.error e, sleeps)
    | .resp r =>
      if r.status = 429 ∧ attempt < maxRetries then
        requestLoop env maxRetries fuel (attempt + 1) lastError (sleeps + 1)
      else if 500 ≤ r.status ∧ attempt < maxRetries then
        requestLoop env maxRetries fuel (attempt + 1) lastError (sleeps + 1)
      else
        match processBody r with
        | .ok d => (.ok d, sleeps)
        | .error e =>
          if e.name ≠ "AbortError" ∧ attempt < maxRetries then
            requestLoop env maxRetries fuel (attempt + 1) (some e) (sleeps + 1)
          else (.error e, sleeps)

/-- One CloudflareClient.request call: the loop run from attempt 0 with
no recorded error and no sleeps, with fuel for the maxRetries + 1
iterations of the for-loop of the source.  Returns the outcome and the number
of backoff sleeps performed. -/
def requestTotals (env : Nat → FetchOutcome) (maxRetries : Nat) :
    Except JsError HttpResponse × Nat :=
  requestLoop env maxRetries (maxRetries + 1) 0 none 0

/-! ## Shared helper lemmas -/

/-- The deployments component of the caught per-project fetch is exactly
the contribution of the parent. -/
theorem fetchDeploymentsCaught_fst (env : PollEnv) (p : CloudflareProject) :
    (fetchDeploymentsCaught env p).1 = parentContribution env p := by
  unfold fetchDeploymentsCaught parentContribution
  cases env.fetchDeployments p <;> rfl

/-- Flattening the deployment components of the caught fetches yields
collectDeployments. -/
theorem perParent_flatten (env : PollEnv) (ps : List CloudflareProject) :
    ((ps.map (fetchDeploymentsCaught env)).map (fun x => x.1)).flatten =
      collectDeployments env ps := by
  unfold collectDeployments
  rw [List.map_map]
  have hfg : ((fun x : List CloudflareDeployment × Option String => x.1) ∘
      fetchDeploymentsCaught env) = parentContribution env := by
    funext p
    exact fetchDeploymentsCaught_fst env p
  rw [hfg]

/-! ## Claim theorems -/

/-- C6: for every key present in the cache, get returns the stored value
(counted as a hit, with the entry moved to most-recently-used position)
exactly when now - storedAt ≤ ttl at lookup time; when the age exceeds
the ttl, get deletes the stale entry, counts a miss and reports a miss,
so an entry older than its TTL is never returned as a hit. -/
theorem cache_get_ttl_hit_iff {T : Type} (c : CacheService T)
    (key : String) (now : Nat) (e : CacheEntry T)
    (h : mapGet c.cache key = some e) :
    (now - e.timestamp ≤ c.ttl →
      c.get key now =
        (some e.value,
         { c with
             cache := mapSet (mapDelete c.cache key) key
               { e with accessCount := e.accessCount + 1 },
             hits := c.hits + 1 })) ∧
    (c.ttl < now - e.timestamp →
      c.get key now =
        (none, { c with cache := mapDelete c.cache key,
                        misses := c.misses + 1 })) := by
  constructor
  · intro hle
    simp only [CacheService.get, h]
    rw [if_neg (by omega)]
  · intro hgt
    simp only [CacheService.get, h]
    rw [if_pos hgt]

/-- C6 witness: a concrete cache holding key a stored at time 0 with
ttl 50; at now = 100 the entry is stale, so get removes it and counts a
miss. -/
theorem cache_get_ttl_hit_iff_witness :
    mapGet ((⟨[("a", ⟨5, 0, 0⟩)], 3, 50, 0, 0⟩ : CacheService Nat)).cache
        "a" = some ⟨5, 0, 0⟩ ∧
    (⟨[("a", ⟨5, 0, 0⟩)], 3, 50, 0, 0⟩ : CacheService Nat).get "a" 100 =
      (none,
       { (⟨[("a", ⟨5, 0, 0⟩)], 3, 50, 0, 0⟩ : CacheService Nat) with
           cache := mapDelete [("a", ⟨5, 0, 0⟩)] "a", misses := 0 + 1 }) :=
  ⟨by decide,
   (cache_get_ttl_hit_iff (⟨[("a", ⟨5, 0, 0⟩)], 3, 50, 0, 0⟩ :
       CacheService Nat) "a" 100 ⟨5, 0, 0⟩ (by decide)).2 (by decide)⟩

/-- C7: the code does not always evict the least-recently-used entry
when a new key is inserted at capacity.  At the concrete failing input —
a cache of maxSize 1 whose single (therefore least-recently-used) entry
has the empty string as key — inserting the fresh key x evicts nothing:
the JavaScript truthiness guard if (firstKey) treats the empty-string key
as falsy and skips the delete, so the old entry survives and the cache
ends up with 2 entries, above its maxSize of 1. -/
theorem lru_eviction_skipped_for_empty_key :
    ((⟨[("", ⟨1, 0, 0⟩)], 1, 1000, 0, 0⟩ : CacheService Nat).set
        "x" 2 10).cache.length = 2 ∧
    mapGet ((⟨[("", ⟨1, 0, 0⟩)], 1, 1000, 0, 0⟩ : CacheService Nat).set
        "x" 2 10).cache "" = some ⟨1, 0, 0⟩ ∧
    (⟨[("", ⟨1, 0, 0⟩)], 1, 1000, 0, 0⟩ : CacheService Nat).maxSize = 1 := by
  decide

/-- C9: at the failing input hits = 1, misses = 4 the hit rate is
exactly 20 percent, and getHealthStatus returns down, although the
claim (matching the documentation of the function itself, which reserves down
for rates strictly below 20 percent) requires degraded there; with no
requests recorded the function does return operational. -/
theorem health_at_twenty_percent_down :
    (CacheService.mk ([] : List (String × CacheEntry Nat))
        100 10000 1 4).getHealthStatus = .down ∧
    (CacheService.mk ([] : List (String × CacheEntry Nat))
        100 10000 0 0).getHealthStatus = .operational := by
  decide

/-- C1: the claimed invariant — at most one poll cycle in flight at any
time after start() — is false for the code: start() begins an immediate
cycle and installs the interval, and the very next interval tick invokes
poll() again with no in-flight guard, reaching a state with two
overlapping cycles. -/
theorem poll_no_overlap_refuted :
    ¬ (∀ s : PollSchedState, SchedReachable s → s.inFlight ≤ 1) := by
  intro h
  have h2 := h (tickStep (startStep ⟨false, false, 0⟩))
    (SchedReachable.tick (SchedReachable.start SchedReachable.init))
  simp [startStep, tickStep] at h2

/-- C1 amended: a cycle that is still running when the next interval
trigger fires is not skipped: whenever the interval is installed, a tick
begins one further poll cycle regardless of how many are already in
flight, and in particular a state with two overlapping in-flight cycles
is reachable from the stopped initial state. -/
theorem poll_tick_starts_overlapping_cycle (s : PollSchedState)
    (h : s.hasInterval = true) :
    (tickStep s).inFlight = s.inFlight + 1 ∧
    ∃ s2 : PollSchedState, SchedReachable s2 ∧ s2.inFlight = 2 := by
  refine ⟨by simp [tickStep, h], ⟨tickStep (startStep ⟨false, false, 0⟩),
    SchedReachable.tick (SchedReachable.start SchedReachable.init), ?_⟩⟩
  simp [startStep, tickStep]

/-- C1 amended witness: concretely, from the running state with one
in-flight cycle and the interval installed, a tick yields two in-flight
cycles. -/
theorem poll_tick_starts_overlapping_cycle_witness :
    (tickStep ⟨true, true, 1⟩).inFlight = 1 + 1 ∧
    ∃ s2 : PollSchedState, SchedReachable s2 ∧ s2.inFlight = 2 :=
  poll_tick_starts_overlapping_cycle ⟨true, true, 1⟩ rfl

/-- C2: at the failing input — every fetch attempt answered with an HTTP
401 (ok = false, a non-retryable client error that is neither a 429 nor
a 5xx) and maxRetries = 3 — the request loop does not propagate the
error immediately: the catch block retries every error whose name is not
AbortError, so the call performs 3 backoff sleeps (4 attempts in total)
before the error finally reaches the caller. -/
theorem client_error_retried_with_backoff :
    requestTotals (fun _ =>
        .resp ⟨401, none, false, false, some "Invalid credentials",
               "Unauthorized"⟩) 3 =
      (.error ⟨"Error", "Cloudflare API error: Invalid credentials"⟩, 3) := by
  rfl

/-- C8: a subscribe attempt arriving when the registry already holds
MAX_CLIENTS subscribers is rejected with the capacity error and leaves
the registry exactly as it was — nothing is added, removed or queued. -/
theorem subscribe_at_capacity_rejected (clients : List SSEClient)
    (newId : String) (topics : List String) (now : Nat)
    (h : clients.length = MAX_CLIENTS) :
    (createConnection clients newId topics now).1 = .rejected ∧
    (createConnection clients newId topics now).2 = clients := by
  constructor <;> simp [createConnection, h]

/-- C8 witness: a registry of exactly 1000 identical subscribers rejects
the next connection and is left unchanged. -/
theorem subscribe_at_capacity_rejected_witness :
    (createConnection (List.replicate 1000 ⟨"c", ["*"], 0, 0⟩)
        "fresh" ["deployments"] 5).1 = .rejected ∧
    (createConnection (List.replicate 1000 ⟨"c", ["*"], 0, 0⟩)
        "fresh" ["deployments"] 5).2 =
      List.replicate 1000 ⟨"c", ["*"], 0, 0⟩ :=
  subscribe_at_capacity_rejected (List.replicate 1000 ⟨"c", ["*"], 0, 0⟩)
    "fresh" ["deployments"] 5 (by rw [List.length_replicate]; rfl)

/-- C3: the claim — a connected subscriber whose writes always succeed
survives every heartbeat tick regardless of its topics — is false for
the code: the heartbeat is delivered through broadcast on the reserved
heartbeat topic, which targets only subscribers of the wildcard or of
that topic, so a subscriber registered only for the deployments topic is
never refreshed and the sweep removes it once its liveness timestamp is
older than twice the heartbeat interval, even though every write to it
would succeed. -/
theorem heartbeat_liveness_claim_refuted :
    ¬ (∀ (clients : List SSEClient) (now : Nat) (writeOk : String → Bool)
        (c : SSEClient), c ∈ clients → (∀ id, writeOk id = true) →
        ∃ c2 ∈ heartbeatTick now writeOk clients, c2.id = c.id) := by
  intro h
  obtain ⟨c2, hc2, -⟩ := h [⟨"dep1", ["deployments"], 0, 0⟩] 60001
    (fun _ => true) ⟨"dep1", ["deployments"], 0, 0⟩ (by simp)
    (fun _ => rfl)
  have hempty : heartbeatTick 60001 (fun _ => true)
      [(⟨"dep1", ["deployments"], 0, 0⟩ : SSEClient)] = [] := by rfl
  rw [hempty] at hc2
  exact absurd hc2 (List.not_mem_nil c2)

/-- C3 amended: on a heartbeat tick the heartbeat message is broadcast
to exactly the registered subscribers whose topic set contains the
wildcard or the heartbeat topic, and the sweep judges staleness on the
pre-tick liveness timestamps (the refresh runs after the synchronous
sweep).  Consequently a registered subscriber of the wildcard or
heartbeat topic whose write succeeds and whose liveness is at most twice
the heartbeat interval old survives the tick with its liveness refreshed
to the tick time, while a registered subscriber of neither topic is
removed as soon as its liveness is older than that threshold, no matter
that its writes succeed. -/
theorem heartbeat_tick_members (clients : List SSEClient) (now : Nat)
    (writeOk : String → Bool) (c : SSEClient) (hc : c ∈ clients) :
    (isTarget "heartbeat" c = true → writeOk c.id = true →
       now - c.lastHeartbeat ≤ staleThreshold →
       { c with lastHeartbeat := now } ∈ heartbeatTick now writeOk clients) ∧
    (isTarget "heartbeat" c = false →
       staleThreshold < now - c.lastHeartbeat →
       c ∉ heartbeatTick now writeOk clients) := by
  constructor
  · intro ht hw hfresh
    unfold heartbeatTick broadcastStep
    refine List.mem_filterMap.mpr ⟨c, List.mem_filter.mpr ⟨hc, ?_⟩, ?_⟩
    · simp only [Bool.not_eq_eq_eq_not, Bool.not_true, decide_eq_false_iff_not]
      omega
    · rw [if_pos ht, if_pos hw]
  · intro ht hstale hmem
    unfold heartbeatTick broadcastStep at hmem
    obtain ⟨a, ha, hfa⟩ := List.mem_filterMap.mp hmem
    have hkeep := (List.mem_filter.mp ha).2
    by_cases hta : isTarget "heartbeat" a = true
    · rw [if_pos hta] at hfa
      by_cases hwa : writeOk a.id = true
      · rw [if_pos hwa] at hfa
        have hca : c = { a with lastHeartbeat := now } := by
          injection hfa with h1
          exact h1.symm
        have hsame : isTarget "heartbeat" c = isTarget "heartbeat" a := by
          rw [hca]
          rfl
        rw [hsame, hta] at ht
        exact absurd ht (by decide)
      · rw [if_neg hwa] at hfa
        exact Option.noConfusion hfa
    · rw [if_neg hta] at hfa
      have hac : a = c := by
        injection hfa
      rw [hac] at hkeep
      simp only [Bool.not_eq_eq_eq_not, Bool.not_true,
        decide_eq_false_iff_not] at hkeep
      omega

/-- C3 amended witness: with two registered subscribers — one on the
wildcard topic with liveness 50 seconds old, one only on the deployments
topic with liveness 70 seconds old — and every write succeeding, the
heartbeat tick at time 70000 keeps the wildcard subscriber with its
liveness refreshed to 70000 and removes the deployments-only
subscriber. -/
theorem heartbeat_tick_members_witness :
    ({ (⟨"star1", ["*"], 0, 20000⟩ : SSEClient) with lastHeartbeat := 70000 }
        ∈ heartbeatTick 70000 (fun _ => true)
            [⟨"star1", ["*"], 0, 20000⟩, ⟨"dep1", ["deployments"], 0, 0⟩]) ∧
    ((⟨"dep1", ["deployments"], 0, 0⟩ : SSEClient)
        ∉ heartbeatTick 70000 (fun _ => true)
            [⟨"star1", ["*"], 0, 20000⟩, ⟨"dep1", ["deployments"], 0, 0⟩]) :=
  ⟨(heartbeat_tick_members
      [⟨"star1", ["*"], 0, 20000⟩, ⟨"dep1", ["deployments"], 0, 0⟩]
      70000 (fun _ => true) ⟨"star1", ["*"], 0, 20000⟩
      (by decide)).1 (by decide) rfl (by decide),
   (heartbeat_tick_members
      [⟨"star1", ["*"], 0, 20000⟩, ⟨"dep1", ["deployments"], 0, 0⟩]
      70000 (fun _ => true) ⟨"dep1", ["deployments"], 0, 0⟩
      (by decide)).2 (by decide) (by decide)⟩

/-- C4: poll() never throws — the embedding returns a total PollResult
for every environment — and when an exception escapes the per-resource
handlers (here: the projects upsert raising after a successful fetch),
the top-level catch records it as the single critical-failure error
entry, the returned PollResult is well formed with success false and the
counts reached before the raise, and that result is stored as the last
poll result. -/
theorem poll_critical_failure_caught (env : PollEnv) (s : PollingState)
    (ps : List CloudflareProject) (m : String)
    (hfetch : env.fetchProjects = .ok ps) (hne : 0 < ps.length)
    (hup : env.upsertProjects ps = .error m) :
    (pollUpdate env s).1.success = false ∧
    (pollUpdate env s).1.errors = ["Critical failure: " ++ m] ∧
    (pollUpdate env s).1.projectsCount = 0 ∧
    (pollUpdate env s).1.deploymentsCount = 0 ∧
    (pollUpdate env s).2.lastPollResult = some (pollUpdate env s).1 := by
  have hrun : pollRun env =
      ({ success := false, projectsCount := 0, deploymentsCount := 0,
         errors := ["Critical failure: " ++ m] },
       [PersistCall.projects ps]) := by
    simp only [pollRun, hfetch]
    rw [if_pos hne, hup]
    rfl
  simp [pollUpdate, hrun]

/-- C4 witness: a concrete environment whose single project fetch
succeeds and whose projects upsert raises db down yields the critical
failure result, stored as the last result. -/
theorem poll_critical_failure_caught_witness :
    (pollUpdate
        ⟨.ok [⟨"id1", "p1", "acct", "t0", none⟩], fun _ => .ok [],
         fun _ => .error "db down", fun _ => .ok ()⟩ ⟨none⟩).1.success =
      false ∧
    (pollUpdate
        ⟨.ok [⟨"id1", "p1", "acct", "t0", none⟩], fun _ => .ok [],
         fun _ => .error "db down", fun _ => .ok ()⟩ ⟨none⟩).1.errors =
      ["Critical failure: " ++ "db down"] ∧
    (pollUpdate
        ⟨.ok [⟨"id1", "p1", "acct", "t0", none⟩], fun _ => .ok [],
         fun _ => .error "db down", fun _ => .ok ()⟩ ⟨none⟩).1.projectsCount =
      0 ∧
    (pollUpdate
        ⟨.ok [⟨"id1", "p1", "acct", "t0", none⟩], fun _ => .ok [],
         fun _ => .error "db down", fun _ => .ok ()⟩ ⟨none⟩).1.deploymentsCount =
      0 ∧
    (pollUpdate
        ⟨.ok [⟨"id1", "p1", "acct", "t0", none⟩], fun _ => .ok [],
         fun _ => .error "db down", fun _ => .ok ()⟩ ⟨none⟩).2.lastPollResult =
      some (pollUpdate
        ⟨.ok [⟨"id1", "p1", "acct", "t0", none⟩], fun _ => .ok [],
         fun _ => .error "db down", fun _ => .ok ()⟩ ⟨none⟩).1 :=
  poll_critical_failure_caught _ ⟨none⟩ [⟨"id1", "p1", "acct", "t0", none⟩]
    "db down" rfl (by decide) rfl

/-- C10: when the top-level projects fetch raises or returns the empty
list, the cycle issues no persistence call at all and the returned
PollResult reports zero projects and zero deployments — the persisted
state is left untouched. -/
theorem poll_empty_projects_frame (env : PollEnv)
    (h : (∃ m, env.fetchProjects = .error m) ∨ env.fetchProjects = .ok []) :
    (pollRun env).2 = [] ∧ (pollRun env).1.projectsCount = 0 ∧
    (pollRun env).1.deploymentsCount = 0 := by
  rcases h with ⟨m, hm⟩ | hm <;> simp [pollRun, hm]

/-- C10 witness: a concrete environment whose projects fetch raises
upstream down issues no persistence call and reports zero counts. -/
theorem poll_empty_projects_frame_witness :
    (pollRun ⟨.error "upstream down", fun _ => .ok [], fun _ => .ok (),
        fun _ => .ok ()⟩).2 = [] ∧
    (pollRun ⟨.error "upstream down", fun _ => .ok [], fun _ => .ok (),
        fun _ => .ok ()⟩).1.projectsCount = 0 ∧
    (pollRun ⟨.error "upstream down", fun _ => .ok [], fun _ => .ok (),
        fun _ => .ok ()⟩).1.deploymentsCount = 0 :=
  poll_empty_projects_frame _ (.inl ⟨"upstream down", rfl⟩)

/-- The value of one poll cycle when the projects fetch and both upserts
succeed: the error list is exactly the per-project deployment-fetch
error messages, the counts are the fetched totals, and when any
deployments were collected the bulk upsert call for exactly the
collected list is issued. -/
theorem pollRun_ok_case (env : PollEnv) (ps : List CloudflareProject)
    (hfetch : env.fetchProjects = .ok ps) (hne : 0 < ps.length)
    (hupP : env.upsertProjects ps = .ok ())
    (hupD : env.upsertDeployments (collectDeployments env ps) = .ok ()) :
    (pollRun env).1.success =
      ((ps.map (fetchDeploymentsCaught env)).filterMap
        (fun x => x.2)).isEmpty ∧
    (pollRun env).1.errors =
      (ps.map (fetchDeploymentsCaught env)).filterMap (fun x => x.2) ∧
    (pollRun env).1.projectsCount = ps.length ∧
    (pollRun env).1.deploymentsCount = (collectDeployments env ps).length ∧
    (0 < (collectDeployments env ps).length →
      (pollRun env).2 =
        [PersistCall.projects ps,
         PersistCall.deployments (collectDeployments env ps)]) := by
  simp only [pollRun, hfetch]
  rw [if_pos hne, hupP]
  rw [perParent_flatten env ps]
  by_cases hpos : 0 < (collectDeployments env ps).length
  · rw [if_pos hpos, hupD]
    exact ⟨rfl, rfl, rfl, rfl, fun _ => rfl⟩
  · rw [if_neg hpos]
    have h0 : (collectDeployments env ps).length = 0 := by omega
    rw [h0]
    exact ⟨rfl, rfl, rfl, rfl, fun hc => absurd hc (lt_irrefl 0)⟩

/-- C5: when the deployments fetch for one project p raises while the
projects fetch and both upserts succeed, the cycle still completes: the
result has success false, its error list contains the entry identifying
p, the failed parent contributes zero deployment records, the returned
deployments count equals the total over the successful parents, and the
collected deployments of the successful parents are the ones handed to
the bulk persistence upsert. -/
theorem poll_isolates_subresource_failure (env : PollEnv)
    (ps : List CloudflareProject) (p : CloudflareProject) (m : String)
    (hfetch : env.fetchProjects = .ok ps) (hp : p ∈ ps)
    (hfail : env.fetchDeployments p = .error m)
    (hupP : env.upsertProjects ps = .ok ())
    (hupD : env.upsertDeployments (collectDeployments env ps) = .ok ()) :
    (pollRun env).1.success = false ∧
    ("Deployments fetch failed for " ++ p.name ++ ": " ++ m) ∈
      (pollRun env).1.errors ∧
    parentContribution env p = [] ∧
    (pollRun env).1.deploymentsCount = (collectDeployments env ps).length ∧
    (0 < (collectDeployments env ps).length →
      PersistCall.deployments (collectDeployments env ps) ∈
        (pollRun env).2) := by
  have hne : 0 < ps.length := List.length_pos.mpr (List.ne_nil_of_mem hp)
  obtain ⟨hsucc, herrs, -, hcount, hcalls⟩ :=
    pollRun_ok_case env ps hfetch hne hupP hupD
  have hmsg : ("Deployments fetch failed for " ++ p.name ++ ": " ++ m) ∈
      (ps.map (fetchDeploymentsCaught env)).filterMap (fun x => x.2) := by
    refine List.mem_filterMap.mpr
      ⟨fetchDeploymentsCaught env p, List.mem_map_of_mem _ hp, ?_⟩
    simp [fetchDeploymentsCaught, hfail]
  refine ⟨?_, ?_, ?_, hcount, ?_⟩
  · rw [hsucc]
    cases hE : (ps.map (fetchDeploymentsCaught env)).filterMap
        (fun x => x.2) with
    | nil => exact absurd (hE ▸ hmsg) (List.not_mem_nil _)
    | cons a t => rfl
  · rw [herrs]
    exact hmsg
  · simp [parentContribution, hfail]
  · intro hc
    rw [hcalls hc]
    simp

/-- C5 witness: two projects, deployments succeed for p1 with one record
and raise for p2; the cycle reports success false with the identifying
error entry, p2 contributes nothing, the count is 1 and the bulk upsert
call carries exactly the p1 deployment. -/
theorem poll_isolates_subresource_failure_witness :
    (pollRun ⟨.ok [⟨"id1", "p1", "acct", "t0", none⟩,
        ⟨"id2", "p2", "acct", "t0", none⟩],
        fun q => if q.name = "p1" then
            .ok [⟨"d1", "id1", "p1", "production", "u", "active", "t", "t",
                  ⟨"deploy", "success", none, none⟩, []⟩]
          else .error "boom",
        fun _ => .ok (), fun _ => .ok ()⟩).1.success = false ∧
    ("Deployments fetch failed for " ++ "p2" ++ ": " ++ "boom") ∈
      (pollRun ⟨.ok [⟨"id1", "p1", "acct", "t0", none⟩,
        ⟨"id2", "p2", "acct", "t0", none⟩],
        fun q => if q.name = "p1" then
            .ok [⟨"d1", "id1", "p1", "production", "u", "active", "t", "t",
                  ⟨"deploy", "success", none, none⟩, []⟩]
          else .error "boom",
        fun _ => .ok (), fun _ => .ok ()⟩).1.errors ∧
    parentContribution ⟨.ok [⟨"id1", "p1", "acct", "t0", none⟩,
        ⟨"id2", "p2", "acct", "t0", none⟩],
        fun q => if q.name = "p1" then
            .ok [⟨"d1", "id1", "p1", "production", "u", "active", "t", "t",
                  ⟨"deploy", "success", none, none⟩, []⟩]
          else .error "boom",
        fun _ => .ok (), fun _ => .ok ()⟩
      ⟨"id2", "p2", "acct", "t0", none⟩ = [] ∧
    (pollRun ⟨.ok [⟨"id1", "p1", "acct", "t0", none⟩,
        ⟨"id2", "p2", "acct", "t0", none⟩],
        fun q => if q.name = "p1" then
            .ok [⟨"d1", "id1", "p1", "production", "u", "active", "t", "t",
                  ⟨"deploy", "success", none, none⟩, []⟩]
          else .error "boom",
        fun _ => .ok (), fun _ => .ok ()⟩).1.deploymentsCount =
      (collectDeployments ⟨.ok [⟨"id1", "p1", "acct", "t0", none⟩,
        ⟨"id2", "p2", "acct", "t0", none⟩],
        fun q => if q.name = "p1" then
            .ok [⟨"d1", "id1", "p1", "production", "u", "active", "t", "t",
                  ⟨"deploy", "success", none, none⟩, []⟩]
          else .error "boom",
        fun _ => .ok (), fun _ => .ok ()⟩
        [⟨"id1", "p1", "acct", "t0", none⟩,
         ⟨"id2", "p2", "acct", "t0", none⟩]).length ∧
    (0 < (collectDeployments ⟨.ok [⟨"id1", "p1", "acct", "t0", none⟩,
        ⟨"id2", "p2", "acct", "t0", none⟩],
        fun q => if q.name = "p1" then
            .ok [⟨"d1", "id1", "p1", "production", "u", "active", "t", "t",
                  ⟨"deploy", "success", none, none⟩, []⟩]
          else .error "boom",
        fun _ => .ok (), fun _ => .ok ()⟩
        [⟨"id1", "p1", "acct", "t0", none⟩,
         ⟨"id2", "p2", "acct", "t0", none⟩]).length →
      PersistCall.deployments (collectDeployments
        ⟨.ok [⟨"id1", "p1", "acct", "t0", none⟩,
          ⟨"id2", "p2", "acct", "t0", none⟩],
          fun q => if q.name = "p1" then
              .ok [⟨"d1", "id1", "p1", "production", "u", "active", "t", "t",
                    ⟨"deploy", "success", none, none⟩, []⟩]
            else .error "boom",
          fun _ => .ok (), fun _ => .ok ()⟩
        [⟨"id1", "p1", "acct", "t0", none⟩,
         ⟨"id2", "p2", "acct", "t0", none⟩]) ∈
        (pollRun ⟨.ok [⟨"id1", "p1", "acct", "t0", none⟩,
          ⟨"id2", "p2", "acct", "t0", none⟩],
          fun q => if q.name = "p1" then
              .ok [⟨"d1", "id1", "p1", "production", "u", "active", "t", "t",
                    ⟨"deploy", "success", none, none⟩, []⟩]
            else .error "boom",
          fun _ => .ok (), fun _ => .ok ()⟩).2) :=
  poll_isolates_subresource_failure _
    [⟨"id1", "p1", "acct", "t0", none⟩, ⟨"id2", "p2", "acct", "t0", none⟩]
    ⟨"id2", "p2", "acct", "t0", none⟩ "boom" rfl (by decide) rfl rfl rfl

end CloudflareMonitor
